import Mathlib

/-!
Shallow embedding of the process/session supervisor in `src/Neovim.ts`
(the `Neovim` class of the edit-in-neovim plugin).

The mutable fields `this.instance` and `this.process` become an explicit
`NeovimState` record threaded through each operation.  Interactions with
the outside world (user notices, console logging, the TCP port probe, the
`child_process.spawn` / `execFile` invocations, the RPC attach/quit/kill
calls) are recorded as an ordered `List Effect`; results of external calls
that the code branches on (the port probe, the spawn outcome, the RPC
buffer listing, whether `instance.quit()` throws) are passed in as
explicit oracle arguments.
-/

namespace EditInNeovim

/-- Characters of `s` after the last occurrence of `sep` (the whole string
when `sep` does not occur).  Models the JavaScript idioms
`s.split(sep).at(-1)` and `s.split(sep).pop()`, which always yield the
final segment of the split. -/
def lastSegmentAfter (sep : Char) (s : String) : String :=
  String.mk ((s.data.reverse.takeWhile (fun c => c != sep)).reverse)

/-- Models JavaScript `s.endsWith(post)`. -/
def endsWithStr (s post : String) : Bool :=
  List.isSuffixOf post.data s.data

/-- The slice of the plugin settings object that `Neovim.ts` reads
(`Settings.ts` itself is outside the supervisor core). -/
structure EditInNeovimSettings where
  pathToBinary : String
  terminal : String
  listenOn : String
  supportedFileTypes : List String
deriving Repr, DecidableEq

/-- An open request's file: the fields of Obsidian's `TFile` that
`openFile` reads (`path` and `extension`). -/
structure TFile where
  path : String
  extension : String
deriving Repr, DecidableEq

/-- The owned OS child process (`this.process`); only its identity
(`pid`) matters to the claims. -/
structure SupervisedProcess where
  pid : Nat
deriving Repr, DecidableEq

/-- The attached RPC client (`this.instance`); abstract identity. -/
structure ControlSession where
  sessionId : Nat
deriving Repr, DecidableEq

/-- The supervisor's mutable state: `this.instance` and `this.process`. -/
structure NeovimState where
  instanceRef : Option ControlSession
  processRef : Option SupervisedProcess
deriving Repr, DecidableEq

/-- Observable side effects, in program order.  `notice` is a user-facing
`new Notice(msg, timeoutMs)`; `log`, `logWarn`, `logError` are console
diagnostics; `probePort` is the `isPortInUse(port)` TCP probe;
`spawnCall` is `child_process.spawn(bin, args)`; `execFileCall` is
`child_process.execFile(bin, args)`; `attachCall` is `attach(\x7bproc\x7d)`;
`quitCall` is `instance.quit()`; `killCall` is `process.kill(signal)`. -/
inductive Effect where
  | notice (msg : String) (timeoutMs : Nat)
  | log (msg : String)
  | logWarn (msg : String)
  | logError (msg : String)
  | probePort (port : String)
  | spawnCall (bin : String) (args : List String)
  | execFileCall (bin : String) (args : List String)
  | attachCall
  | quitCall
  | killCall (signal : String)
deriving Repr, DecidableEq

/-- User-facing notices among the effects. -/
def isNoticeEff : Effect → Bool
  | Effect.notice _ _ => true
  | _ => false

/-- Console-only diagnostics. -/
def isLogEff : Effect → Bool
  | Effect.log _ => true
  | Effect.logWarn _ => true
  | Effect.logError _ => true
  | _ => false

def isProbeEff : Effect → Bool
  | Effect.probePort _ => true
  | _ => false

def isSpawnEff : Effect → Bool
  | Effect.spawnCall _ _ => true
  | _ => false

def isExecEff : Effect → Bool
  | Effect.execFileCall _ _ => true
  | _ => false

def isQuitOrKillEff : Effect → Bool
  | Effect.quitCall => true
  | Effect.killCall _ => true
  | _ => false

/-- The notices an operation emitted, in order. -/
def noticesOf (es : List Effect) : List Effect := es.filter isNoticeEff

/-- The remote-open (`execFile`) invocations an operation emitted. -/
def execsOf (es : List Effect) : List Effect := es.filter isExecEff

def hasProbe (es : List Effect) : Bool := es.any isProbeEff

def hasSpawn (es : List Effect) : Bool := es.any isSpawnEff

def hasExec (es : List Effect) : Bool := es.any isExecEff

/-- Neovim.ts lines 224-241, the file-type filter of `openFile`: the final
value of the mutable `isSupported` local.  `isExcalidrawMd` holds when the
extension is `md` and the path ends in `.excalidraw.md`; in that case the
code overwrites `isSupported` with the result of
`supportedFileTypes.includes("excalidraw")`. -/
def isSupportedFile (supportedFileTypes : List String) (f : TFile) : Bool :=
  let isExcalidrawMd := f.extension == "md" && endsWithStr f.path ".excalidraw.md"
  let isSupported := supportedFileTypes.contains f.extension
  if isExcalidrawMd then supportedFileTypes.contains "excalidraw"
  else isSupported

/-- The console traces produced by the file-type filter (Neovim.ts lines
228-239); these mirror the same branch structure as `isSupportedFile`. -/
def filterTrace (supportedFileTypes : List String) (f : TFile) : List Effect :=
  let isExcalidrawMd := f.extension == "md" && endsWithStr f.path ".excalidraw.md"
  if isExcalidrawMd then
    if supportedFileTypes.contains "excalidraw" then
      [Effect.log ("Opening Excalidraw file: " ++ f.path)]
    else
      [Effect.log ("Skipping Excalidraw file (type not enabled): " ++ f.path)]
  else if supportedFileTypes.contains f.extension then []
  else
    [Effect.log ("Skipping unsupported file type '" ++ f.extension ++ "': " ++ f.path)]

/-- Neovim.ts lines 254-271: decide reachability.  Reachable without a
probe when both `this.instance` and `this.process` exist; otherwise, when
a non-empty port was parsed, probe it with `isPortInUse` (whose outcome,
including a thrown error, is the `portInUse` oracle); probe errors are
caught and treated as not reachable. -/
def checkConnect (st : NeovimState) (port listenAddress : String)
    (portInUse : Except String Bool) : Bool × List Effect :=
  if st.instanceRef.isSome && st.processRef.isSome then
    (true, [Effect.log "Found active Neovim instance managed by plugin."])
  else if port ≠ "" then
    match portInUse with
    | Except.ok true =>
        (true, [Effect.probePort port,
                Effect.log ("Port " ++ port ++ " is in use. Assuming external Neovim instance is running."),
                Effect.notice ("Opening file in external Neovim on " ++ listenAddress ++ "...") 3000])
    | Except.ok false =>
        (false, [Effect.probePort port,
                 Effect.log ("Port " ++ port ++ " is not in use. No Neovim instance found.")])
    | Except.error e =>
        (false, [Effect.probePort port,
                 Effect.logError ("Error checking port " ++ port ++ ": " ++ e)])
  else (false, [])

/-- The user-facing text of the "no instance found" outcome. -/
def noRunningNoticeMsg : String :=
  "No running Neovim found. Use 'Open Neovim' or ensure an external instance is listening."

/-- Neovim.ts lines 218-319, `openFile`.  `nvimPath` is
`this.nvimBinary?.path`; `getFullPath` models the external
`adapter.getFullPath` (absolute path of a vault-relative path);
`portInUse` is the port-probe oracle.  The state is read, never written:
the returned state equals `st` on every path. -/
def openFile (settings : EditInNeovimSettings) (nvimPath : String)
    (getFullPath : String → String) (portInUse : Except String Bool)
    (st : NeovimState) (file : Option TFile) : NeovimState × List Effect :=
  match file with
  | none => (st, [Effect.log "openFile called with null file."])
  | some f =>
    let supported := isSupportedFile settings.supportedFileTypes f
    let fTrace := filterTrace settings.supportedFileTypes f
    if supported = false then (st, fTrace)
    else
      let listenAddress := settings.listenOn
      let port := lastSegmentAfter ':' listenAddress
      if nvimPath = "" then
        (st, fTrace ++
          [Effect.logError "Cannot open file: Neovim binary path is not configured.",
           Effect.notice "Neovim path unknown, cannot open file." 7000])
      else
        let connect := checkConnect st port listenAddress portInUse
        if connect.1 = false then
          (st, fTrace ++ connect.2 ++
            [Effect.log "No running Neovim instance (internal or external) found to open file in.",
             Effect.notice noRunningNoticeMsg 5000])
        else
          let absolutePath := getFullPath f.path
          (st, fTrace ++ connect.2 ++
            [Effect.log ("Requesting Neovim on " ++ listenAddress ++ " to open: " ++ absolutePath),
             Effect.execFileCall nvimPath ["--server", listenAddress, "--remote", absolutePath]])

/-- Resolved binary location: `this.nvimBinary`, an element of
`findNvim(...).matches` — a path, an optional `nvimVersion`, and an
optional error (modelled as its message). -/
structure BinaryLocation where
  path : String
  nvimVersion : Option String
  error : Option String
deriving Repr, DecidableEq

/-- Neovim.ts lines 23-37, the constructor block that determines the
Neovim binary.  `findNvimMatches` stands for the result of the external
`findNvim` filesystem search over the candidate directories; when
`settings.pathToBinary` is non-empty (truthy) that search result is never
consulted — the override is trusted unconditionally, with
`nvimVersion = "manual_path"` and no error. -/
def resolveNvimBinary (pathToBinary : String)
    (findNvimMatches : List BinaryLocation) : BinaryLocation × List Effect :=
  if pathToBinary ≠ "" then
    ({ path := pathToBinary, nvimVersion := some "manual_path", error := none },
     [Effect.log ("Using manual Neovim path: " ++ pathToBinary)])
  else
    match findNvimMatches with
    | m :: _ => (m, [Effect.log "Searching for Neovim binary in default locations..."])
    | [] =>
        ({ path := "", nvimVersion := none,
           error := some "Neovim binary not found automatically." },
         [Effect.log "Searching for Neovim binary in default locations...",
          Effect.notice "Edit In Neovim: Could not automatically find a Neovim binary. Please set the path manually in settings or ensure nvim is in your PATH." 10000])

/-- Neovim.ts lines 62-71, `getBuffers`.  Buffers are abstracted to their
ids; `buffersResult` is the oracle for `await this.instance.buffers`
(`Except.error` models a thrown transport error, which is caught).
Returns (unchanged state, buffer list, effects). -/
def getBuffers (buffersResult : Except String (List Nat)) (st : NeovimState) :
    NeovimState × List Nat × List Effect :=
  match st.instanceRef with
  | none => (st, [], [])
  | some _ =>
    match buffersResult with
    | Except.ok bufs => (st, bufs, [])
    | Except.error e =>
        (st, [],
         [Effect.logError ("Failed to get Neovim buffers: " ++ e),
          Effect.notice ("Error communicating with Neovim: " ++ e) 5000])

/-- The `code` property of the Node error passed to the `error` lifecycle
handler, as far as the handler inspects it. -/
inductive ErrCode where
  | ENOENT
  | EACCES
  | otherCode
deriving Repr, DecidableEq

/-- Neovim.ts lines 155-166, the `error` lifecycle handler: classifies
the OS error into a user message, then clears both references
unconditionally (no `if (this.process)` guard on this handler). -/
def onErrorHandler (termPath : String) (code : ErrCode) (errMsg : String)
    (st : NeovimState) : NeovimState × List Effect :=
  let message :=
    match code with
    | ErrCode.ENOENT =>
        "Could not find executable: " ++ termPath ++ ". Is it installed and in PATH?"
    | ErrCode.EACCES => "Permission denied executing: " ++ termPath
    | ErrCode.otherCode => "Failed to start Neovim process: " ++ errMsg
  (⟨none, none⟩,
   [Effect.logError ("Neovim child_process emitted 'error' event: " ++ errMsg),
    Effect.notice message 10000])

/-- Neovim.ts lines 168-173, the `close` lifecycle handler: clears both
references if the process reference is still present. -/
def onCloseHandler (st : NeovimState) : NeovimState × List Effect :=
  if st.processRef.isSome then (⟨none, none⟩, []) else (st, [])

/-- Neovim.ts lines 175-181, the `exit` lifecycle handler. -/
def onExitHandler (st : NeovimState) : NeovimState × List Effect :=
  if st.processRef.isSome then
    (⟨none, none⟩, [Effect.log "Neovim instance and process state cleared on 'exit'."])
  else (st, [])

/-- Neovim.ts lines 183-190, the `disconnect` lifecycle handler: logs the
event, then clears both references if the process is still present. -/
def onDisconnectHandler (st : NeovimState) : NeovimState × List Effect :=
  (if st.processRef.isSome then ⟨none, none⟩ else st,
   Effect.log "Neovim process 'disconnect' event." ::
     (if st.processRef.isSome then
       [Effect.log "Neovim instance and process state cleared on 'disconnect'."]
      else []))

/-- The four registered lifecycle events; `error` carries the fields of
the Node error object that the handler reads. -/
inductive LifecycleEvent where
  | error (code : ErrCode) (msg : String)
  | close
  | exit
  | disconnect
deriving Repr, DecidableEq

/-- Dispatch a lifecycle event to its registered handler
(Neovim.ts lines 155-190). -/
def fireEvent (termPath : String) (ev : LifecycleEvent) (st : NeovimState) :
    NeovimState × List Effect :=
  match ev with
  | LifecycleEvent.error code msg => onErrorHandler termPath code msg st
  | LifecycleEvent.close => onCloseHandler st
  | LifecycleEvent.exit => onExitHandler st
  | LifecycleEvent.disconnect => onDisconnectHandler st

/-- Neovim.ts lines 321-346, `close`.  `quitThrows` is the oracle for
whether `this.instance.quit()` throws; the exception is caught and only
logged, and the reference is cleared regardless.  `kill` and the final
notice always run; both references are `undefined` afterwards on every
path. -/
def close (quitThrows : Bool) (st : NeovimState) : NeovimState × List Effect :=
  let quitEffects :=
    match st.instanceRef with
    | some _ =>
        [Effect.log "Attempting to quit Neovim instance via RPC...", Effect.quitCall] ++
          (if quitThrows then [Effect.logError "Error during instance.quit()"] else [])
    | none => [Effect.log "No active Neovim instance object to quit via RPC."]
  let killEffects :=
    match st.processRef with
    | some _ => [Effect.killCall "SIGTERM"]
    | none => [Effect.log "No active Neovim process object to kill."]
  (⟨none, none⟩,
   Effect.log "Close method called." :: quitEffects ++ killEffects ++
     [Effect.log "Neovim instance and process references cleared.",
      Effect.notice "Neovim instance closed." 3000])

/-- `process.platform`: the branch the code takes is just
win32-vs-everything-else. -/
inductive Platform where
  | win32
  | posix
deriving Repr, DecidableEq

/-- The `shell` field of the spawn options: `false`, `true`, or an
explicit shell path string. -/
inductive ShellOpt where
  | noShell
  | defaultShell
  | shellPath (s : String)
deriving Repr, DecidableEq

/-- Neovim.ts lines 97-133: the launch plan — spawn argument vector,
shell mode, and the diagnostics emitted while planning.  On win32 the
policy is keyed by the lower-cased basename of the terminal path
(`termPath.split('\\').pop()?.toLowerCase()`); elsewhere the generic
`-e` form is used with the user's login shell (`os.userInfo().shell`,
modelled by `userShell`, empty meaning unset) falling back to `true`. -/
def buildSpawnPlan (platform : Platform) (termPath nvimPath listenArg : String)
    (userShell : String) : List String × ShellOpt × List Effect :=
  match platform with
  | Platform.win32 =>
    let terminalName := String.mk ((lastSegmentAfter '\\' termPath).data.map Char.toLower)
    if terminalName == "alacritty.exe" || terminalName == "wezterm.exe" ||
        terminalName == "kitty.exe" then
      (["-e", nvimPath, "--listen", listenArg], ShellOpt.noShell, [])
    else if terminalName == "wt.exe" then
      (["new-tab", "--title", "Neovim", nvimPath, "--listen", listenArg],
       ShellOpt.noShell, [])
    else if terminalName == "powershell.exe" || terminalName == "pwsh.exe" then
      (["-ExecutionPolicy", "Bypass", "-NoProfile", "-NoExit", "-Command",
        "Start-Process -FilePath '" ++ nvimPath ++ "' -ArgumentList '--listen " ++
          listenArg ++ "' -WindowStyle Normal"],
       ShellOpt.defaultShell, [])
    else if terminalName == "cmd.exe" then
      (["/c", "start", "\"Neovim\"", "\"" ++ nvimPath ++ "\"", "--listen", listenArg],
       ShellOpt.defaultShell, [])
    else
      (["-e", nvimPath, "--listen", listenArg], ShellOpt.noShell,
       [Effect.logWarn ("Unknown/unhandled Windows terminal: " ++ termPath ++
          ". Attempting generic '-e' execution (shell: false). This may fail.")])
  | Platform.posix =>
    (["-e", nvimPath, "--listen", listenArg],
     (if userShell ≠ "" then ShellOpt.shellPath userShell else ShellOpt.defaultShell),
     [Effect.log "Using config for non-Windows"])

/-- Outcome of the `child_process.spawn` call: it threw, it produced an
object without a pid, or it produced a live process. -/
inductive SpawnOutcome where
  | throws (msg : String)
  | noPid
  | ok (p : SupervisedProcess)
deriving Repr, DecidableEq

/-- Neovim.ts lines 73-216, `newInstance`.  Oracles: `termBinary` is
`this.termBinary`, `nvimBinary` is `this.nvimBinary`, `userShell` models
`os.userInfo().shell` (empty meaning unset), `spawnResult` is the
outcome of `child_process.spawn`.  If a process already exists the call
returns immediately with an "already running" notice and no spawn.  On a
successful spawn the four lifecycle handlers are registered (modelled by
`fireEvent`) and `attach` yields the control session. -/
def newInstance (settings : EditInNeovimSettings) (termBinary : Option String)
    (nvimBinary : BinaryLocation) (platform : Platform) (userShell : String)
    (spawnResult : SpawnOutcome) (st : NeovimState) : NeovimState × List Effect :=
  match st.processRef with
  | some _ =>
      (st, [Effect.notice "Linked Neovim instance already running" 5000,
            Effect.log "newInstance called, but process already exists."])
  | none =>
    match termBinary with
    | none =>
        (st, [Effect.notice ("Unknown terminal: '" ++ settings.terminal ++
                "'. Is it installed and on your PATH? Cannot start Neovim.") 8000,
              Effect.logError "newInstance failed: Terminal binary path is missing."])
    | some termPath =>
      if nvimBinary.path = "" then
        (st, [Effect.notice "Neovim binary path is not configured correctly. Cannot start Neovim." 8000,
              Effect.logError "newInstance failed: Neovim binary path is missing."])
      else
        let plan := buildSpawnPlan platform termPath nvimBinary.path settings.listenOn userShell
        let spawnEff := Effect.spawnCall termPath plan.1
        match spawnResult with
        | SpawnOutcome.throws msg =>
            (⟨none, none⟩,
             plan.2.2 ++ [spawnEff,
               Effect.logError ("Error caught during child_process.spawn call itself: " ++ msg),
               Effect.notice ("Error trying to spawn Neovim: " ++ msg) 10000])
        | SpawnOutcome.noPid =>
            ({ st with processRef := none },
             plan.2.2 ++ [spawnEff,
               Effect.logError "Failed to spawn process object or PID is undefined immediately after spawn call.",
               Effect.notice "Failed to create Neovim process object." 7000])
        | SpawnOutcome.ok p =>
            (⟨some ⟨p.pid⟩, some p⟩,
             plan.2.2 ++ [spawnEff,
               Effect.log "Process spawned successfully",
               Effect.attachCall])

/-! ## Helper lemmas -/

/-- A list of console-only diagnostics carries no notice, no remote-open
invocation, no probe and no spawn. -/
theorem logsOnly_no_side (es : List Effect) (h : es.all isLogEff = true) :
    noticesOf es = [] ∧ execsOf es = [] ∧ hasExec es = false
    ∧ hasProbe es = false ∧ hasSpawn es = false := by
  induction es with
  | nil => simp [noticesOf, execsOf, hasExec, hasProbe, hasSpawn]
  | cons e tl ih =>
    simp only [List.all_cons, Bool.and_eq_true] at h
    obtain ⟨he, htl⟩ := h
    obtain ⟨h1, h2, h3, h4, h5⟩ := ih htl
    cases e <;>
      simp_all [noticesOf, execsOf, hasExec, hasProbe, hasSpawn, isLogEff,
        isNoticeEff, isExecEff, isProbeEff, isSpawnEff]

theorem noticesOf_append (a b : List Effect) :
    noticesOf (a ++ b) = noticesOf a ++ noticesOf b := by
  simp [noticesOf]

theorem execsOf_append (a b : List Effect) :
    execsOf (a ++ b) = execsOf a ++ execsOf b := by
  simp [execsOf]

theorem hasExec_append (a b : List Effect) :
    hasExec (a ++ b) = (hasExec a || hasExec b) := by
  simp [hasExec]

theorem hasProbe_append (a b : List Effect) :
    hasProbe (a ++ b) = (hasProbe a || hasProbe b) := by
  simp [hasProbe]

theorem hasSpawn_append (a b : List Effect) :
    hasSpawn (a ++ b) = (hasSpawn a || hasSpawn b) := by
  simp [hasSpawn]

/-- The file-type filter emits console traces only. -/
theorem filterTrace_all_logs (sft : List String) (f : TFile) :
    (filterTrace sft f).all isLogEff = true := by
  simp only [filterTrace]
  split
  · split <;> rfl
  · split <;> rfl

theorem filterTrace_noticesOf (sft : List String) (f : TFile) :
    noticesOf (filterTrace sft f) = [] :=
  (logsOnly_no_side _ (filterTrace_all_logs sft f)).1

theorem filterTrace_execsOf (sft : List String) (f : TFile) :
    execsOf (filterTrace sft f) = [] :=
  (logsOnly_no_side _ (filterTrace_all_logs sft f)).2.1

theorem filterTrace_hasExec (sft : List String) (f : TFile) :
    hasExec (filterTrace sft f) = false :=
  (logsOnly_no_side _ (filterTrace_all_logs sft f)).2.2.1

theorem filterTrace_hasProbe (sft : List String) (f : TFile) :
    hasProbe (filterTrace sft f) = false :=
  (logsOnly_no_side _ (filterTrace_all_logs sft f)).2.2.2.1

theorem filterTrace_hasSpawn (sft : List String) (f : TFile) :
    hasSpawn (filterTrace sft f) = false :=
  (logsOnly_no_side _ (filterTrace_all_logs sft f)).2.2.2.2

/-- Reachability when the owned instance and process both exist: no probe
is performed. -/
theorem checkConnect_owned (st : NeovimState) (port listen : String)
    (portInUse : Except String Bool)
    (hpair : (st.instanceRef.isSome && st.processRef.isSome) = true) :
    checkConnect st port listen portInUse
      = (true, [Effect.log "Found active Neovim instance managed by plugin."]) := by
  simp [checkConnect, hpair]

/-- Reachability via a successful port probe. -/
theorem checkConnect_probe_ok (st : NeovimState) (port listen : String)
    (hpair : (st.instanceRef.isSome && st.processRef.isSome) = false)
    (hp : port ≠ "") :
    checkConnect st port listen (Except.ok true)
      = (true,
         [Effect.probePort port,
          Effect.log ("Port " ++ port ++ " is in use. Assuming external Neovim instance is running."),
          Effect.notice ("Opening file in external Neovim on " ++ listen ++ "...") 3000]) := by
  simp [checkConnect, hpair, hp]

/-- With no owned pair and a probe that does not succeed (closed port or
probe error), reachability is false and the probe emits no notice, no
remote-open and no spawn. -/
theorem checkConnect_unreachable (st : NeovimState) (port listen : String)
    (portInUse : Except String Bool)
    (hpair : (st.instanceRef.isSome && st.processRef.isSome) = false)
    (hprobe : portInUse ≠ Except.ok true) :
    (checkConnect st port listen portInUse).1 = false
    ∧ noticesOf (checkConnect st port listen portInUse).2 = []
    ∧ hasExec (checkConnect st port listen portInUse).2 = false
    ∧ hasSpawn (checkConnect st port listen portInUse).2 = false := by
  cases portInUse with
  | error e =>
    by_cases hp : port = "" <;>
      simp [checkConnect, hpair, hp, noticesOf, hasExec, hasSpawn, isNoticeEff,
        isExecEff, isSpawnEff]
  | ok b =>
    cases b with
    | true => exact absurd rfl hprobe
    | false =>
      by_cases hp : port = "" <;>
        simp [checkConnect, hpair, hp, noticesOf, hasExec, hasSpawn, isNoticeEff,
          isExecEff, isSpawnEff]

/-! ## Claim theorems -/

/-- C9: calling openFile with a null file is a silent no-op — it returns
immediately with only a console trace: no notification, no port probe, no
remote-open invocation, and the state is unchanged. -/
theorem C9_null_file_noop (settings : EditInNeovimSettings) (nvimPath : String)
    (getFullPath : String → String) (portInUse : Except String Bool)
    (st : NeovimState) :
    openFile settings nvimPath getFullPath portInUse st none
      = (st, [Effect.log "openFile called with null file."])
    ∧ noticesOf (openFile settings nvimPath getFullPath portInUse st none).2 = []
    ∧ hasProbe (openFile settings nvimPath getFullPath portInUse st none).2 = false
    ∧ hasExec (openFile settings nvimPath getFullPath portInUse st none).2 = false :=
  ⟨rfl, rfl, rfl, rfl⟩

/-- C8 counterexample: with a configured override path, the resolver does
return the path with no error, but the version marker is the string
"manual_path", not "manual" as the claim states. -/
theorem C8_counterexample :
    (resolveNvimBinary "/custom/nvim" []).1.path = "/custom/nvim"
    ∧ (resolveNvimBinary "/custom/nvim" []).1.error = none
    ∧ (resolveNvimBinary "/custom/nvim" []).1.nvimVersion = some "manual_path"
    ∧ (resolveNvimBinary "/custom/nvim" []).1.nvimVersion ≠ some "manual" := by
  refine ⟨by decide, by decide, by decide, by decide⟩

/-- C8 (amended): for every non-empty configured override binary path, the
resolver returns that path unconditionally with version marker
"manual_path" and no error, independent of the filesystem search result
(no existence check at resolution time). -/
theorem C8_override_trusted (pathToBinary : String) (h : pathToBinary ≠ "")
    (fs fsOther : List BinaryLocation) :
    (resolveNvimBinary pathToBinary fs).1
      = { path := pathToBinary, nvimVersion := some "manual_path", error := none }
    ∧ (resolveNvimBinary pathToBinary fs).1
      = (resolveNvimBinary pathToBinary fsOther).1 := by
  constructor <;> simp [resolveNvimBinary, h]

/-- C8 witness: the amended theorem evaluated at a concrete override path
and two different filesystem search results. -/
theorem C8_override_trusted_witness :
    (resolveNvimBinary "/opt/nvim" []).1
      = { path := "/opt/nvim", nvimVersion := some "manual_path", error := none }
    ∧ (resolveNvimBinary "/opt/nvim" []).1
      = (resolveNvimBinary "/opt/nvim" [{ path := "/elsewhere", nvimVersion := none, error := none }]).1 :=
  C8_override_trusted "/opt/nvim" (by decide) [] [{ path := "/elsewhere", nvimVersion := none, error := none }]

/-- C2: launch (newInstance) while a SupervisedProcess exists is a no-op
reporting "already running": no spawn occurs, the process reference (and
its pid) is unchanged, and the ControlSession reference is unchanged. -/
theorem C2_launch_already_running (settings : EditInNeovimSettings)
    (termBinary : Option String) (nvimBinary : BinaryLocation) (platform : Platform)
    (userShell : String) (spawnResult : SpawnOutcome) (st : NeovimState)
    (p : SupervisedProcess) (h : st.processRef = some p) :
    newInstance settings termBinary nvimBinary platform userShell spawnResult st
      = (st, [Effect.notice "Linked Neovim instance already running" 5000,
              Effect.log "newInstance called, but process already exists."])
    ∧ (newInstance settings termBinary nvimBinary platform userShell spawnResult st).1.processRef
        = some p
    ∧ (newInstance settings termBinary nvimBinary platform userShell spawnResult st).1.instanceRef
        = st.instanceRef
    ∧ hasSpawn (newInstance settings termBinary nvimBinary platform userShell spawnResult st).2
        = false := by
  have hne : newInstance settings termBinary nvimBinary platform userShell spawnResult st
      = (st, [Effect.notice "Linked Neovim instance already running" 5000,
              Effect.log "newInstance called, but process already exists."]) := by
    simp [newInstance, h]
  refine ⟨hne, ?_, ?_, ?_⟩ <;> rw [hne] <;> first | exact h | rfl

/-- C2 witness: the theorem evaluated with a running process of pid 42. -/
theorem C2_launch_already_running_witness :
    newInstance ⟨"", "kitty", "127.0.0.1:2345", ["md"]⟩ (some "/usr/bin/kitty")
        { path := "/usr/bin/nvim", nvimVersion := some "0.10", error := none }
        Platform.posix "/bin/zsh" (SpawnOutcome.ok ⟨99⟩) ⟨some ⟨7⟩, some ⟨42⟩⟩
      = (⟨some ⟨7⟩, some ⟨42⟩⟩,
         [Effect.notice "Linked Neovim instance already running" 5000,
          Effect.log "newInstance called, but process already exists."]) :=
  (C2_launch_already_running ⟨"", "kitty", "127.0.0.1:2345", ["md"]⟩ (some "/usr/bin/kitty")
    { path := "/usr/bin/nvim", nvimVersion := some "0.10", error := none }
    Platform.posix "/bin/zsh" (SpawnOutcome.ok ⟨99⟩) ⟨some ⟨7⟩, some ⟨42⟩⟩ ⟨42⟩ rfl).1

/-- C3 counterexample: the error lifecycle handler is not guarded by the
process-presence check — fired in a state whose process reference is
already absent it still clears the session reference, changing the state
(the close, exit and disconnect handlers would leave it untouched). -/
theorem C3_counterexample :
    (⟨some ⟨0⟩, none⟩ : NeovimState).processRef = none
    ∧ (fireEvent "term" (LifecycleEvent.error ErrCode.otherCode "boom")
        ⟨some ⟨0⟩, none⟩).1 ≠ ⟨some ⟨0⟩, none⟩ := by
  refine ⟨rfl, by decide⟩

/-- C3 (amended): each of the four lifecycle handlers clears both the
SupervisedProcess and ControlSession references in the same step; close,
exit and disconnect are guarded by the process-presence check, while
error clears unconditionally.  Under the invariant that a ControlSession
never outlives its SupervisedProcess, after any of the four fires both
references are absent, and firing a second lifecycle event has no
additional effect on state. -/
theorem C3_lifecycle_clear (termPath termPathSecond : String)
    (ev evSecond : LifecycleEvent) (st : NeovimState)
    (hinv : st.processRef = none → st.instanceRef = none) :
    (fireEvent termPath ev st).1 = ⟨none, none⟩
    ∧ (fireEvent termPathSecond evSecond (fireEvent termPath ev st).1).1
        = (fireEvent termPath ev st).1
    ∧ ((ev = LifecycleEvent.close ∨ ev = LifecycleEvent.exit
          ∨ ev = LifecycleEvent.disconnect) →
        st.processRef = none → (fireEvent termPath ev st).1 = st) := by
  obtain ⟨i, p⟩ := st
  have hcleared : (fireEvent termPath ev ⟨i, p⟩).1 = ⟨none, none⟩ := by
    cases p with
    | some q =>
      cases ev <;>
        simp [fireEvent, onErrorHandler, onCloseHandler, onExitHandler, onDisconnectHandler]
    | none =>
      have hi : i = none := hinv rfl
      subst hi
      cases ev <;>
        simp [fireEvent, onErrorHandler, onCloseHandler, onExitHandler, onDisconnectHandler]
  refine ⟨hcleared, ?_, ?_⟩
  · rw [hcleared]
    cases evSecond <;>
      simp [fireEvent, onErrorHandler, onCloseHandler, onExitHandler, onDisconnectHandler]
  · rintro (rfl | rfl | rfl) hnone <;> simp at hnone <;> subst hnone <;>
      simp [fireEvent, onCloseHandler, onExitHandler, onDisconnectHandler]

/-- C3 witness: the amended theorem evaluated at a concrete running state
(error then close) and at the concrete already-cleared state (guard). -/
theorem C3_lifecycle_clear_witness :
    (fireEvent "t" (LifecycleEvent.error ErrCode.ENOENT "m") ⟨some ⟨7⟩, some ⟨3⟩⟩).1
      = ⟨none, none⟩
    ∧ (fireEvent "t" LifecycleEvent.close ⟨none, none⟩).1 = ⟨none, none⟩ :=
  ⟨(C3_lifecycle_clear "t" "u" (LifecycleEvent.error ErrCode.ENOENT "m")
      LifecycleEvent.close ⟨some ⟨7⟩, some ⟨3⟩⟩ (by simp)).1,
   (C3_lifecycle_clear "t" "u" LifecycleEvent.close LifecycleEvent.exit
      ⟨none, none⟩ (fun _ => rfl)).2.2 (Or.inl rfl) rfl⟩

/-- C6: listBuffers (getBuffers) never changes state; with no
ControlSession it returns an empty result and no effects; with a session
whose transport call fails it logs the failure, notifies, and returns an
empty result instead of propagating the error. -/
theorem C6_getBuffers_safe (buffersResult : Except String (List Nat))
    (st : NeovimState) :
    (getBuffers buffersResult st).1 = st
    ∧ (st.instanceRef = none → getBuffers buffersResult st = (st, [], []))
    ∧ (∀ e s, buffersResult = Except.error e → st.instanceRef = some s →
        (getBuffers buffersResult st).2.1 = []
        ∧ (getBuffers buffersResult st).2.2
            = [Effect.logError ("Failed to get Neovim buffers: " ++ e),
               Effect.notice ("Error communicating with Neovim: " ++ e) 5000]) := by
  refine ⟨?_, ?_, ?_⟩
  · cases hi : st.instanceRef <;> cases buffersResult <;> simp [getBuffers, hi]
  · intro hnone
    simp [getBuffers, hnone]
  · intro e s herr hsome
    subst herr
    simp [getBuffers, hsome]

/-- C6 witness: the theorem evaluated with no session, and with a session
whose transport call throws. -/
theorem C6_getBuffers_safe_witness :
    getBuffers (Except.ok [1, 2]) ⟨none, none⟩ = (⟨none, none⟩, [], [])
    ∧ (getBuffers (Except.error "EPIPE") ⟨some ⟨1⟩, some ⟨2⟩⟩).1 = ⟨some ⟨1⟩, some ⟨2⟩⟩
    ∧ (getBuffers (Except.error "EPIPE") ⟨some ⟨1⟩, some ⟨2⟩⟩).2.1 = [] :=
  ⟨(C6_getBuffers_safe (Except.ok [1, 2]) ⟨none, none⟩).2.1 rfl,
   (C6_getBuffers_safe (Except.error "EPIPE") ⟨some ⟨1⟩, some ⟨2⟩⟩).1,
   ((C6_getBuffers_safe (Except.error "EPIPE") ⟨some ⟨1⟩, some ⟨2⟩⟩).2.2 "EPIPE" ⟨1⟩
      rfl rfl).1⟩

/-- C7: close always clears both references (regardless of whether the
graceful quit threw), attempts the graceful quit before the forceful
SIGTERM termination when both references exist, and a second close with
no intervening launch leaves state unchanged and attempts neither quit
nor kill (exceptions from quit are caught, so no call raises). -/
theorem C7_close_idempotent (quitThrows quitThrowsSecond : Bool) (st : NeovimState) :
    (close quitThrows st).1 = ⟨none, none⟩
    ∧ (close quitThrowsSecond (close quitThrows st).1).1 = (close quitThrows st).1
    ∧ (st.instanceRef.isSome = true → st.processRef.isSome = true →
        (close quitThrows st).2.filter isQuitOrKillEff
          = [Effect.quitCall, Effect.killCall "SIGTERM"])
    ∧ (close quitThrowsSecond (close quitThrows st).1).2.filter isQuitOrKillEff = [] := by
  obtain ⟨i, p⟩ := st
  refine ⟨?_, ?_, ?_, ?_⟩
  · cases i <;> cases p <;> simp [close]
  · cases i <;> cases p <;> cases quitThrows <;> cases quitThrowsSecond <;>
      simp [close, isQuitOrKillEff]
  · intro hi hp
    cases i with
    | none => simp at hi
    | some s =>
      cases p with
      | none => simp at hp
      | some q => cases quitThrows <;> simp [close, isQuitOrKillEff]
  · cases i <;> cases p <;> cases quitThrows <;> cases quitThrowsSecond <;>
      simp [close, isQuitOrKillEff]

/-- C7 witness: the theorem evaluated at a live state with a throwing
quit: both references cleared and quit ordered before kill. -/
theorem C7_close_idempotent_witness :
    (close true ⟨some ⟨1⟩, some ⟨2⟩⟩).1 = ⟨none, none⟩
    ∧ (close true ⟨some ⟨1⟩, some ⟨2⟩⟩).2.filter isQuitOrKillEff
        = [Effect.quitCall, Effect.killCall "SIGTERM"] :=
  ⟨(C7_close_idempotent true false ⟨some ⟨1⟩, some ⟨2⟩⟩).1,
   (C7_close_idempotent true false ⟨some ⟨1⟩, some ⟨2⟩⟩).2.2.1 rfl rfl⟩

/-- C1 counterexample: with supported set ["excalidraw"] — the composite
toggle enabled but the base extension "md" NOT in the supported set — an
.excalidraw.md open request passes the filter and, in a reachable state,
openFile issues a remote-open invocation, where the claim requires silent
rejection of this "only toggle" combination. -/
theorem C1_counterexample :
    isSupportedFile ["excalidraw"] ⟨"drawing.excalidraw.md", "md"⟩ = true
    ∧ List.contains ["excalidraw"] "md" = false
    ∧ hasExec (openFile ⟨"", "kitty", "127.0.0.1:2345", ["excalidraw"]⟩
        "/usr/bin/nvim" (fun p => String.append "/base/" p) (Except.ok false)
        ⟨some ⟨0⟩, some ⟨1⟩⟩ (some ⟨"drawing.excalidraw.md", "md"⟩)).2 = true := by
  refine ⟨by decide, by decide, by decide⟩

/-- C1 (amended): for a composite-format document (extension "md", path
ending in ".excalidraw.md"), openFile proceeds past the filter if and
only if the dedicated composite-format flag ("excalidraw" in the
supported set) is enabled — the base extension plays no role.  When the
toggle is disabled the request is rejected silently: state unchanged,
only a diagnostic trace, no notification, no probe, no remote-open. -/
theorem C1_excalidraw_filter (settings : EditInNeovimSettings) (nvimPath : String)
    (getFullPath : String → String) (portInUse : Except String Bool)
    (st : NeovimState) (f : TFile)
    (hmd : f.extension = "md") (hpath : endsWithStr f.path ".excalidraw.md" = true) :
    isSupportedFile settings.supportedFileTypes f
      = settings.supportedFileTypes.contains "excalidraw"
    ∧ (settings.supportedFileTypes.contains "excalidraw" = false →
        (openFile settings nvimPath getFullPath portInUse st (some f)).1 = st
        ∧ noticesOf (openFile settings nvimPath getFullPath portInUse st (some f)).2 = []
        ∧ hasExec (openFile settings nvimPath getFullPath portInUse st (some f)).2 = false
        ∧ hasProbe (openFile settings nvimPath getFullPath portInUse st (some f)).2 = false) := by
  have hsupp : isSupportedFile settings.supportedFileTypes f
      = settings.supportedFileTypes.contains "excalidraw" := by
    simp [isSupportedFile, hmd, hpath]
  refine ⟨hsupp, fun htog => ?_⟩
  have hsupfalse : isSupportedFile settings.supportedFileTypes f = false := by
    rw [hsupp, htog]
  have hof : openFile settings nvimPath getFullPath portInUse st (some f)
      = (st, filterTrace settings.supportedFileTypes f) := by
    simp [openFile, hsupfalse]
  rw [hof]
  exact ⟨rfl, filterTrace_noticesOf _ _, filterTrace_hasExec _ _, filterTrace_hasProbe _ _⟩

/-- C1 witness: the amended theorem evaluated at a supported set holding
only "md": the filter decision equals the toggle lookup (false), and the
rejection leaves the state unchanged. -/
theorem C1_excalidraw_filter_witness :
    isSupportedFile ["md"] ⟨"d.excalidraw.md", "md"⟩ = List.contains ["md"] "excalidraw"
    ∧ (openFile ⟨"", "kitty", "127.0.0.1:7777", ["md"]⟩ "/usr/bin/nvim" (fun p => p)
        (Except.ok true) ⟨none, none⟩ (some ⟨"d.excalidraw.md", "md"⟩)).1
      = ⟨none, none⟩ :=
  ⟨(C1_excalidraw_filter ⟨"", "kitty", "127.0.0.1:7777", ["md"]⟩ "/usr/bin/nvim"
      (fun p => p) (Except.ok true) ⟨none, none⟩ ⟨"d.excalidraw.md", "md"⟩ rfl
      (by decide)).1,
   ((C1_excalidraw_filter ⟨"", "kitty", "127.0.0.1:7777", ["md"]⟩ "/usr/bin/nvim"
      (fun p => p) (Except.ok true) ⟨none, none⟩ ⟨"d.excalidraw.md", "md"⟩ rfl
      (by decide)).2 (by decide)).1⟩

/-- C4: for a supported open request with no owned process/session pair
and a probe that does not succeed, openFile leaves the state unchanged,
emits exactly the single "no instance found" notification, and issues no
remote-open invocation and no spawn. -/
theorem C4_unreachable_aborts (settings : EditInNeovimSettings) (nvimPath : String)
    (getFullPath : String → String) (portInUse : Except String Bool)
    (st : NeovimState) (f : TFile)
    (hsup : isSupportedFile settings.supportedFileTypes f = true)
    (hnvim : nvimPath ≠ "")
    (hpair : (st.instanceRef.isSome && st.processRef.isSome) = false)
    (hprobe : portInUse ≠ Except.ok true) :
    (openFile settings nvimPath getFullPath portInUse st (some f)).1 = st
    ∧ noticesOf (openFile settings nvimPath getFullPath portInUse st (some f)).2
        = [Effect.notice noRunningNoticeMsg 5000]
    ∧ hasExec (openFile settings nvimPath getFullPath portInUse st (some f)).2 = false
    ∧ hasSpawn (openFile settings nvimPath getFullPath portInUse st (some f)).2 = false := by
  obtain ⟨hc1, hc2, hc3, hc4⟩ := checkConnect_unreachable st
    (lastSegmentAfter ':' settings.listenOn) settings.listenOn portInUse hpair hprobe
  have hof : openFile settings nvimPath getFullPath portInUse st (some f)
      = (st, filterTrace settings.supportedFileTypes f
          ++ (checkConnect st (lastSegmentAfter ':' settings.listenOn)
                settings.listenOn portInUse).2
          ++ [Effect.log "No running Neovim instance (internal or external) found to open file in.",
              Effect.notice noRunningNoticeMsg 5000]) := by
    simp [openFile, hsup, hnvim, hc1]
  rw [hof]
  refine ⟨rfl, ?_, ?_, ?_⟩
  · rw [noticesOf_append, noticesOf_append, filterTrace_noticesOf, hc2]
    rfl
  · rw [hasExec_append, hasExec_append, filterTrace_hasExec, hc3]
    rfl
  · rw [hasSpawn_append, hasSpawn_append, filterTrace_hasSpawn, hc4]
    rfl

/-- C4 witness: a supported md file, empty state, closed port 7777: the
single notice and no remote-open. -/
theorem C4_unreachable_aborts_witness :
    (openFile ⟨"", "kitty", "127.0.0.1:7777", ["md"]⟩ "/usr/bin/nvim" (fun p => p)
        (Except.ok false) ⟨none, none⟩ (some ⟨"notes/today.md", "md"⟩)).1
      = ⟨none, none⟩
    ∧ noticesOf (openFile ⟨"", "kitty", "127.0.0.1:7777", ["md"]⟩ "/usr/bin/nvim"
        (fun p => p) (Except.ok false) ⟨none, none⟩
        (some ⟨"notes/today.md", "md"⟩)).2
      = [Effect.notice noRunningNoticeMsg 5000] :=
  ⟨(C4_unreachable_aborts ⟨"", "kitty", "127.0.0.1:7777", ["md"]⟩ "/usr/bin/nvim"
      (fun p => p) (Except.ok false) ⟨none, none⟩ ⟨"notes/today.md", "md"⟩
      (by decide) (by decide) (by decide) (by simp)).1,
   (C4_unreachable_aborts ⟨"", "kitty", "127.0.0.1:7777", ["md"]⟩ "/usr/bin/nvim"
      (fun p => p) (Except.ok false) ⟨none, none⟩ ⟨"notes/today.md", "md"⟩
      (by decide) (by decide) (by decide) (by simp)).2.1⟩

/-- C5: for a supported open request in a reachable state (owned pair
present — in which case no probe is performed — or probe success),
openFile issues exactly one execFile invocation of the target binary with
argument vector ["--server", listen address, "--remote", absolute path],
in that order, and leaves the state unchanged. -/
theorem C5_remote_open_command (settings : EditInNeovimSettings) (nvimPath : String)
    (getFullPath : String → String) (portInUse : Except String Bool)
    (st : NeovimState) (f : TFile)
    (hsup : isSupportedFile settings.supportedFileTypes f = true)
    (hnvim : nvimPath ≠ "")
    (hreach : (st.instanceRef.isSome && st.processRef.isSome) = true
        ∨ (lastSegmentAfter ':' settings.listenOn ≠ ""
            ∧ portInUse = Except.ok true)) :
    execsOf (openFile settings nvimPath getFullPath portInUse st (some f)).2
      = [Effect.execFileCall nvimPath
          ["--server", settings.listenOn, "--remote", getFullPath f.path]]
    ∧ ((st.instanceRef.isSome && st.processRef.isSome) = true →
        hasProbe (openFile settings nvimPath getFullPath portInUse st (some f)).2 = false)
    ∧ (openFile settings nvimPath getFullPath portInUse st (some f)).1 = st := by
  rcases hreach with hpair | ⟨hport, hprobe⟩
  · have hcc := checkConnect_owned st (lastSegmentAfter ':' settings.listenOn)
      settings.listenOn portInUse hpair
    have hof : openFile settings nvimPath getFullPath portInUse st (some f)
        = (st, filterTrace settings.supportedFileTypes f
            ++ [Effect.log "Found active Neovim instance managed by plugin."]
            ++ [Effect.log ("Requesting Neovim on " ++ settings.listenOn ++ " to open: "
                  ++ getFullPath f.path),
                Effect.execFileCall nvimPath
                  ["--server", settings.listenOn, "--remote", getFullPath f.path]]) := by
      simp [openFile, hsup, hnvim, hcc]
    rw [hof]
    refine ⟨?_, fun _ => ?_, rfl⟩
    · rw [execsOf_append, execsOf_append, filterTrace_execsOf]
      rfl
    · rw [hasProbe_append, hasProbe_append, filterTrace_hasProbe]
      rfl
  · cases hpair : (st.instanceRef.isSome && st.processRef.isSome) with
    | true =>
      have hcc := checkConnect_owned st (lastSegmentAfter ':' settings.listenOn)
        settings.listenOn portInUse hpair
      have hof : openFile settings nvimPath getFullPath portInUse st (some f)
          = (st, filterTrace settings.supportedFileTypes f
              ++ [Effect.log "Found active Neovim instance managed by plugin."]
              ++ [Effect.log ("Requesting Neovim on " ++ settings.listenOn ++ " to open: "
                    ++ getFullPath f.path),
                  Effect.execFileCall nvimPath
                    ["--server", settings.listenOn, "--remote", getFullPath f.path]]) := by
        simp [openFile, hsup, hnvim, hcc]
      rw [hof]
      refine ⟨?_, fun _ => ?_, rfl⟩
      · rw [execsOf_append, execsOf_append, filterTrace_execsOf]
        rfl
      · rw [hasProbe_append, hasProbe_append, filterTrace_hasProbe]
        rfl
    | false =>
      subst hprobe
      have hcc := checkConnect_probe_ok st (lastSegmentAfter ':' settings.listenOn)
        settings.listenOn hpair hport
      have hof : openFile settings nvimPath getFullPath (Except.ok true) st (some f)
          = (st, filterTrace settings.supportedFileTypes f
              ++ [Effect.probePort (lastSegmentAfter ':' settings.listenOn),
                  Effect.log ("Port " ++ lastSegmentAfter ':' settings.listenOn
                    ++ " is in use. Assuming external Neovim instance is running."),
                  Effect.notice ("Opening file in external Neovim on "
                    ++ settings.listenOn ++ "...") 3000]
              ++ [Effect.log ("Requesting Neovim on " ++ settings.listenOn ++ " to open: "
                    ++ getFullPath f.path),
                  Effect.execFileCall nvimPath
                    ["--server", settings.listenOn, "--remote", getFullPath f.path]]) := by
        simp [openFile, hsup, hnvim, hcc]
      rw [hof]
      refine ⟨?_, fun hcontra => ?_, rfl⟩
      · rw [execsOf_append, execsOf_append, filterTrace_execsOf]
        rfl
      · simp at hcontra

/-- C5 witness: the spec's end-to-end example — listen address
127.0.0.1:7777, file notes/today.md, owned pair present: exactly the
command nvimPath --server 127.0.0.1:7777 --remote absolute path, and no
probe. -/
theorem C5_remote_open_command_witness :
    execsOf (openFile ⟨"", "kitty", "127.0.0.1:7777", ["md"]⟩ "/usr/bin/nvim"
        (fun p => String.append "/vault/" p) (Except.ok false) ⟨some ⟨1⟩, some ⟨2⟩⟩
        (some ⟨"notes/today.md", "md"⟩)).2
      = [Effect.execFileCall "/usr/bin/nvim"
          ["--server", "127.0.0.1:7777", "--remote", "/vault/notes/today.md"]]
    ∧ hasProbe (openFile ⟨"", "kitty", "127.0.0.1:7777", ["md"]⟩ "/usr/bin/nvim"
        (fun p => String.append "/vault/" p) (Except.ok false) ⟨some ⟨1⟩, some ⟨2⟩⟩
        (some ⟨"notes/today.md", "md"⟩)).2 = false :=
  ⟨(C5_remote_open_command ⟨"", "kitty", "127.0.0.1:7777", ["md"]⟩ "/usr/bin/nvim"
      (fun p => String.append "/vault/" p) (Except.ok false) ⟨some ⟨1⟩, some ⟨2⟩⟩
      ⟨"notes/today.md", "md"⟩ (by decide) (by decide) (Or.inl rfl)).1,
   (C5_remote_open_command ⟨"", "kitty", "127.0.0.1:7777", ["md"]⟩ "/usr/bin/nvim"
      (fun p => String.append "/vault/" p) (Except.ok false) ⟨some ⟨1⟩, some ⟨2⟩⟩
      ⟨"notes/today.md", "md"⟩ (by decide) (by decide) (Or.inl rfl)).2.1 rfl⟩

/-- C10: for a supported open request with an unresolved (empty) target
binary path, openFile aborts with the "path unknown" notification before
any reachability check — no probe and no remote-open occur even when the
probe oracle would report the port reachable — and state is unchanged. -/
theorem C10_path_unknown (settings : EditInNeovimSettings)
    (getFullPath : String → String) (portInUse : Except String Bool)
    (st : NeovimState) (f : TFile)
    (hsup : isSupportedFile settings.supportedFileTypes f = true) :
    (openFile settings "" getFullPath portInUse st (some f)).1 = st
    ∧ noticesOf (openFile settings "" getFullPath portInUse st (some f)).2
        = [Effect.notice "Neovim path unknown, cannot open file." 7000]
    ∧ hasProbe (openFile settings "" getFullPath portInUse st (some f)).2 = false
    ∧ hasExec (openFile settings "" getFullPath portInUse st (some f)).2 = false := by
  have hof : openFile settings "" getFullPath portInUse st (some f)
      = (st, filterTrace settings.supportedFileTypes f
          ++ [Effect.logError "Cannot open file: Neovim binary path is not configured.",
              Effect.notice "Neovim path unknown, cannot open file." 7000]) := by
    simp [openFile, hsup]
  rw [hof]
  refine ⟨rfl, ?_, ?_, ?_⟩
  · rw [noticesOf_append, filterTrace_noticesOf]
    rfl
  · rw [hasProbe_append, filterTrace_hasProbe]
    rfl
  · rw [hasExec_append, filterTrace_hasExec]
    rfl

/-- C10 witness: supported md file, empty binary path, probe oracle
reporting the port in use: still the path-unknown notice and no probe,
no remote-open. -/
theorem C10_path_unknown_witness :
    (openFile ⟨"", "kitty", "127.0.0.1:7777", ["md"]⟩ "" (fun p => p)
        (Except.ok true) ⟨none, none⟩ (some ⟨"a.md", "md"⟩)).1 = ⟨none, none⟩
    ∧ noticesOf (openFile ⟨"", "kitty", "127.0.0.1:7777", ["md"]⟩ "" (fun p => p)
        (Except.ok true) ⟨none, none⟩ (some ⟨"a.md", "md"⟩)).2
      = [Effect.notice "Neovim path unknown, cannot open file." 7000]
    ∧ hasProbe (openFile ⟨"", "kitty", "127.0.0.1:7777", ["md"]⟩ "" (fun p => p)
        (Except.ok true) ⟨none, none⟩ (some ⟨"a.md", "md"⟩)).2 = false :=
  ⟨(C10_path_unknown ⟨"", "kitty", "127.0.0.1:7777", ["md"]⟩ (fun p => p)
      (Except.ok true) ⟨none, none⟩ ⟨"a.md", "md"⟩ (by decide)).1,
   (C10_path_unknown ⟨"", "kitty", "127.0.0.1:7777", ["md"]⟩ (fun p => p)
      (Except.ok true) ⟨none, none⟩ ⟨"a.md", "md"⟩ (by decide)).2.1,
   (C10_path_unknown ⟨"", "kitty", "127.0.0.1:7777", ["md"]⟩ (fun p => p)
      (Except.ok true) ⟨none, none⟩ ⟨"a.md", "md"⟩ (by decide)).2.2.1⟩

end EditInNeovim
